import Mathlib

/-!
Verification development for the Mission Control chat relay server
(`src/mission-control/server.py`).

The server bridges browser WebSocket clients to a single upstream gateway
connection.  We shallowly embed the pure state-transformation content of its
handlers:

* `ChatHistory` / `Message` — the persisted chat history (`chat_history.json`)
  and the message records the handlers build (Python dicts; optional keys are
  modelled with `Option`).
* `appendMessage` — the list-append step shared by the send handlers and the
  gateway message handler.
* `handle_ws_send` — the send branch of `chat_websocket`.
* `send_chat_message_http` — the HTTP send route.
* `handle_agent_event` — the agent-event (streaming delta) branch of
  `on_gateway_message`.
* `broadcast_to_clients` — fan-out with removal of failed clients.
* `gateway_loop_iter` / `gateway_loop_iter_exception` — one iteration of
  `gateway_connection_loop`, in the normal and the exception case.
* `save_chat_history_ops` — the file-system operations performed by
  `save_chat_history`.

Time-derived identifiers (the millisecond-timestamp ids the server generates)
and timestamps are passed in as parameters; gateway send success is passed in
as a boolean together with its error string, exactly mirroring the
success/result pair `send_to_gateway` returns and the Python code threads
around.
-/

/-- A chat message as built by `server.py`.  Python dicts carry the keys
`id`, `text`, `from`, `timestamp` always, and `run_id`, `complete`,
`streaming` only sometimes; the sometimes-absent keys are `Option`s
(`none` = key absent). -/
structure Message where
  id : String
  text : String
  «from» : String
  timestamp : String
  run_id : Option String := none
  complete : Option Bool := none
  streaming : Option Bool := none
deriving Repr, DecidableEq

/-- The chat-history document (`chat_history.json`): `messages` plus
`session_id`.  The `updated` timestamp set by `save_chat_history` plays no
role in any handler and is omitted. -/
structure ChatHistory where
  messages : List Message
  session_id : Option String := none
deriving Repr, DecidableEq

/-- Server→client frames sent over the browser WebSocket
(`broadcast_to_clients` payloads and direct `ws.send` payloads). -/
inductive Event where
  | message (m : Message)
  | message_update (m : Message)
  | typing (active : Bool)
  | error (error : String)
  | gateway_status (connected : Bool)
  | clear
  | pong
deriving Repr, DecidableEq

/-- Whether a frame is a `{"type": "message"}` frame. -/
def Event.isMessage : Event → Bool
  | .message _ => true
  | _ => false

/-- The Python string strip method: remove leading and trailing
whitespace. -/
def pyStrip (s : String) : String :=
  ⟨((s.data.dropWhile Char.isWhitespace).reverse.dropWhile Char.isWhitespace).reverse⟩

/-- The message-list append step used by `chat_websocket`,
`send_chat_message_http` and `on_gateway_message`.  The Python code performs
no duplicate check and no capacity truncation. -/
def appendMessage (h : ChatHistory) (m : Message) : ChatHistory :=
  { h with messages := h.messages ++ [m] }

/-- Result of one send interaction in `chat_websocket`: the final in-memory
history, the snapshots passed to `save_chat_history`, the events broadcast to
all clients, and the events sent only to the originating socket. -/
structure WsSendResult where
  history : ChatHistory
  saved : List ChatHistory
  broadcasts : List Event
  toSender : List Event
deriving Repr, DecidableEq

/-- The send branch of `chat_websocket` (`server.py` lines 488–526).
`rawText` is the text field of the client frame (empty-string default);
`newId` is the generated millisecond id, `ts` the ISO timestamp;
`gwSuccess` and `gwErr` are the success/result pair returned by
`send_to_gateway`. -/
def handle_ws_send (h : ChatHistory) (rawText newId ts : String)
    (gwSuccess : Bool) (gwErr : String) : WsSendResult :=
  let text := pyStrip rawText
  if text = "" then
    -- the truthiness test on the stripped text fails: nothing at all happens
    ⟨h, [], [], []⟩
  else
    let message : Message := { id := newId, text := text, «from» := "me", timestamp := ts }
    let h' := appendMessage h message
    if gwSuccess then
      ⟨h', [h'], [.message message, .typing true], []⟩
    else
      ⟨h', [h'], [.message message, .typing true, .typing false], [.error gwErr]⟩

/-- HTTP response of `/api/chat/send`. -/
inductive HttpResponse where
  | ok (m : Message)
  | badRequest (error : String)
  | serverError (error : String)
deriving Repr, DecidableEq

/-- Result of one call to the `/api/chat/send` route. -/
structure HttpSendResult where
  history : ChatHistory
  saved : List ChatHistory
  broadcasts : List Event
  response : HttpResponse
deriving Repr, DecidableEq

/-- The HTTP send route `send_chat_message_http` (`server.py` lines
414–445): strip the text, reject empty with a 400, otherwise append + save,
attempt the gateway send, broadcast the message to all clients, and report
failure only in the HTTP response. -/
def send_chat_message_http (h : ChatHistory) (rawText newId ts : String)
    (gwSuccess : Bool) (gwErr : String) : HttpSendResult :=
  let text := pyStrip rawText
  if text = "" then
    ⟨h, [], [], .badRequest "Empty message"⟩
  else
    let message : Message := { id := newId, text := text, «from» := "me", timestamp := ts }
    let h' := appendMessage h message
    ⟨h', [h'], [.message message],
      if gwSuccess then .ok message else .serverError gwErr⟩

/-- The predicate of the message scan in `on_gateway_message`: the entry is
from Koba and carries the sought run id. -/
def matchesRun (rid : String) (m : Message) : Bool :=
  m.«from» == "koba" && m.run_id == some rid

/-- The scan itself: first index (and entry) whose `from` is `"koba"` and whose
`run_id` equals `rid`; `none` when no entry matches. -/
def findKobaRun (msgs : List Message) (rid : String) : Option (Nat × Message) :=
  match msgs with
  | [] => none
  | m :: rest =>
    if matchesRun rid m then some (0, m)
    else (findKobaRun rest rid).map (fun p => (p.1 + 1, p.2))

/-- Result of the agent-event branch of `on_gateway_message`: final history,
snapshots passed to `save_chat_history`, and the broadcast events. -/
structure AgentEventResult where
  history : ChatHistory
  saved : List ChatHistory
  broadcasts : List Event
deriving Repr, DecidableEq

/-- The streaming-delta branch of `on_gateway_message` (`server.py`
lines 190–256), reached for an agent event whose stream is the assistant
stream and whose payload carries a data field.  `rid` is the run id of the
payload (empty-string default), `text` the text of the data field,
`deltaTruthy` tells whether the data field holds a truthy delta key (the
handler treats the delta as complete exactly when it does not), and `newId`
and `ts` are the generated millisecond id and timestamp.  A typing-off frame
is always broadcast; with non-empty text the handler either updates the
first message matching `rid` in place (clearing `run_id` and setting
`complete` when terminal — the `streaming` key is left untouched) or appends
a fresh message that keeps `run_id` even when created terminal. -/
def handle_agent_event (h : ChatHistory) (rid text : String) (deltaTruthy : Bool)
    (newId ts : String) : AgentEventResult :=
  let is_complete := !deltaTruthy
  if text = "" then
    ⟨h, [], [.typing false]⟩
  else
    match findKobaRun h.messages rid with
    | some (i, old) =>
      let upd := if is_complete then
          { old with text := text, complete := some true, run_id := none }
        else
          { old with text := text }
      let h' : ChatHistory := { h with messages := h.messages.set i upd }
      ⟨h', [h'], [.typing false, .message_update upd]⟩
    | none =>
      let msg : Message :=
        { id := newId, text := text, «from» := "koba", timestamp := ts,
          run_id := some rid,
          complete := if is_complete then some true else none,
          streaming := if is_complete then none else some true }
      let h' := appendMessage h msg
      ⟨h', [h'], [.typing false, .message msg]⟩

/-- The send loop of `broadcast_to_clients` (`server.py` lines 82–95):
clients are visited in registry order; a successful `client.send` delivers
the event, a raising one lands the client on the `disconnected` list.
`fails c = true` models `client.send` raising for `c`.  Returns
`(delivered, disconnected)`. -/
def broadcast_pass {α : Type} (fails : α → Bool) (clients : List α) :
    List α × List α :=
  clients.foldl
    (fun acc c => if fails c then (acc.1, acc.2 ++ [c]) else (acc.1 ++ [c], acc.2))
    ([], [])

/-- The cleanup loop of `broadcast_to_clients`: for each disconnected client,
`if client in chat_clients: chat_clients.remove(client)` (remove deletes the
first occurrence). -/
def remove_disconnected {α : Type} [DecidableEq α]
    (clients disconnected : List α) : List α :=
  disconnected.foldl (fun cs c => if c ∈ cs then cs.erase c else cs) clients

/-- The whole of `broadcast_to_clients`: returns the registry after cleanup
and the list of clients that received the event, in order. -/
def broadcast_to_clients {α : Type} [DecidableEq α]
    (fails : α → Bool) (clients : List α) : List α × List α :=
  let p := broadcast_pass fails clients
  (remove_disconnected clients p.2, p.1)

/-- State read and written by `gateway_connection_loop`: the
`gateway_connected` global and the local `reconnect_delay` variable. -/
structure GatewayLoopState where
  gateway_connected : Bool
  reconnect_delay : Nat
deriving Repr, DecidableEq

/-- Outcome of one normal iteration of `gateway_connection_loop`: the new
state, the argument of the `time.sleep` call, and whether a connection
attempt (`connect_to_gateway`) was made. -/
structure LoopIterResult where
  state : GatewayLoopState
  sleep : Nat
  attempted_connect : Bool
deriving Repr, DecidableEq

/-- One iteration of the `while True` body of `gateway_connection_loop`
(`server.py` lines 320–351) in which no exception is raised: when not
connected, attempt a connection and reset `reconnect_delay` to 1; in every
case sleep 30.  (The heartbeat send, which carries no loop state, is
omitted.) -/
def gateway_loop_iter (s : GatewayLoopState) : LoopIterResult :=
  if !s.gateway_connected then
    ⟨⟨s.gateway_connected, 1⟩, 30, true⟩
  else
    ⟨s, 30, false⟩

/-- The `except` branch of `gateway_connection_loop`: sleep for the current
`reconnect_delay`, then double it, capping at 60.  Returns the new state and
the slept duration. -/
def gateway_loop_iter_exception (s : GatewayLoopState) : GatewayLoopState × Nat :=
  (⟨s.gateway_connected, min (s.reconnect_delay * 2) 60⟩, s.reconnect_delay)

/-- File-system operations on the chat-history file.  `truncate` and `write`
are what opening the target file in write mode followed by the JSON dump
perform on it; `writeTemp` and `renameTempToTarget` are the
write-to-temp-then-rename vocabulary of an atomic swap, for comparison. -/
inductive FsOp where
  | truncate
  | write (data : String)
  | writeTemp (data : String)
  | renameTempToTarget
deriving Repr, DecidableEq

/-- The operations `save_chat_history` (`server.py` lines 76–80) performs on
the history file: opening it in write mode truncates it in place, then the
serialized JSON is written into the same file.  No temporary file and no
rename are involved. -/
def save_chat_history_ops (serialized : String) : List FsOp :=
  [.truncate, .write serialized]

/-- Contents of the target file and of the temporary file (if present). -/
structure FsState where
  target : String
  temp : Option String
deriving Repr, DecidableEq

/-- Effect of one file-system operation. -/
def applyFsOp (s : FsState) : FsOp → FsState
  | .truncate => ⟨"", s.temp⟩
  | .write d => ⟨d, s.temp⟩
  | .writeTemp d => ⟨s.target, some d⟩
  | .renameTempToTarget => ⟨s.temp.getD s.target, none⟩

/-- All states reachable while executing a list of file-system operations:
the state before any operation and the state after each one — exactly the
states a crash can leave behind. -/
def crashStates (s : FsState) : List FsOp → List FsState
  | [] => [s]
  | op :: rest => s :: crashStates (applyFsOp s op) rest

/-- A family of pairwise-distinct messages (ids of pairwise-distinct lengths)
used to exercise the store. -/
def mkMsg (i : Nat) : Message :=
  ⟨⟨List.replicate i 'a'⟩, "m", "koba", "t", none, none, none⟩

/-- Folding `appendMessage` over a list of messages appends them all in call
order; nothing is deduplicated or evicted. -/
theorem appendMessage_foldl (ms : List Message) (h : ChatHistory) :
    (ms.foldl appendMessage h).messages = h.messages ++ ms := by
  induction ms generalizing h with
  | nil => simp
  | cons m rest ih => simp [appendMessage, ih]

/-- Appending a non-matching message does not change a failed correlation-id
scan. -/
theorem findKobaRun_append_nomatch (msgs : List Message) (rid : String) (m : Message)
    (hnone : findKobaRun msgs rid = none) (hm : matchesRun rid m = false) :
    findKobaRun (msgs ++ [m]) rid = none := by
  induction msgs with
  | nil => simp [findKobaRun, hm]
  | cons x rest ih =>
    rw [List.cons_append]
    unfold findKobaRun at hnone ⊢
    by_cases hx : matchesRun rid x
    · rw [if_pos hx] at hnone
      exact absurd hnone (by simp)
    · rw [if_neg hx] at hnone ⊢
      rw [Option.map_eq_none'] at hnone ⊢
      exact ih hnone

/-- Appending a matching message to a list with no match makes the scan find
it, at the end of the list. -/
theorem findKobaRun_append_match (msgs : List Message) (rid : String) (m : Message)
    (hnone : findKobaRun msgs rid = none) (hm : matchesRun rid m = true) :
    findKobaRun (msgs ++ [m]) rid = some (msgs.length, m) := by
  induction msgs with
  | nil => simp [findKobaRun, hm]
  | cons x rest ih =>
    rw [List.cons_append]
    unfold findKobaRun at hnone ⊢
    by_cases hx : matchesRun rid x
    · rw [if_pos hx] at hnone
      exact absurd hnone (by simp)
    · rw [if_neg hx] at hnone ⊢
      rw [Option.map_eq_none'] at hnone
      rw [ih hnone]
      simp

/-- Setting the position just past `xs` in `xs ++ [m]` replaces `m`. -/
theorem set_append_singleton {α : Type} (xs : List α) (m u : α) :
    (xs ++ [m]).set xs.length u = xs ++ [u] := by
  induction xs with
  | nil => rfl
  | cons x rest ih => simp [List.set, ih]

/-- Core merge computation: a streaming (non-terminal) delta for a
correlation id absent from the store creates one streaming message, and a
following terminal delta for the same id rewrites that message in place:
final text from the terminal delta, `complete` set, `run_id` removed — and
the `streaming` key left at `true`, since the update branch never touches
it. -/
theorem merge_stream_then_terminal (h : ChatHistory) (rid t1 t2 id1 ts1 id2 ts2 : String)
    (hfind : findKobaRun h.messages rid = none) (h1 : t1 ≠ "") (h2 : t2 ≠ "") :
    (handle_agent_event (handle_agent_event h rid t1 true id1 ts1).history
        rid t2 false id2 ts2).history.messages =
      h.messages ++ [{ id := id1, text := t2, «from» := "koba", timestamp := ts1,
                       run_id := none, complete := some true, streaming := some true }] := by
  have hm1 : matchesRun rid
      (⟨id1, t1, "koba", ts1, some rid, none, some true⟩ : Message) = true := by
    simp [matchesRun]
  have hfind2 := findKobaRun_append_match h.messages rid _ hfind hm1
  simp [handle_agent_event, h1, h2, hfind, hfind2, appendMessage, set_append_singleton]

/-- When the correlation-id scan finds nothing, the delta handler appends one
fresh message: streaming when the delta is non-terminal, complete (but with
`run_id` retained) when it is terminal. -/
theorem handle_agent_event_creates (h : ChatHistory) (rid text : String) (dT : Bool)
    (newId ts : String) (ht : text ≠ "") (hfind : findKobaRun h.messages rid = none) :
    (handle_agent_event h rid text dT newId ts).history.messages =
      h.messages ++ [⟨newId, text, "koba", ts, some rid,
        if !dT then some true else none, if !dT then none else some true⟩] := by
  simp [handle_agent_event, ht, hfind, appendMessage]

/-- The send loop delivers to exactly the non-failing clients and collects
exactly the failing ones, each in registry order. -/
theorem broadcast_pass_eq {α : Type} (fails : α → Bool) (clients : List α) :
    broadcast_pass fails clients =
      (clients.filter (fun c => !fails c), clients.filter fails) := by
  have aux : ∀ (cs : List α) (acc : List α × List α),
      cs.foldl
        (fun acc c => if fails c then (acc.1, acc.2 ++ [c]) else (acc.1 ++ [c], acc.2))
        acc =
        (acc.1 ++ cs.filter (fun c => !fails c), acc.2 ++ cs.filter fails) := by
    intro cs
    induction cs with
    | nil => intro acc; simp
    | cons c rest ih =>
      intro acc
      by_cases hc : fails c
      · simp [List.foldl_cons, hc, List.filter_cons, ih]
      · simp [List.foldl_cons, hc, List.filter_cons, ih]
  simpa [broadcast_pass] using aux clients ([], [])

/-- Appending a fresh element to a duplicate-free list keeps it
duplicate-free. -/
theorem nodup_append_singleton {α : Type} (xs : List α) (a : α)
    (hx : xs.Nodup) (ha : a ∉ xs) : (xs ++ [a]).Nodup := by
  induction xs with
  | nil => simp
  | cons x rest ih =>
    rw [List.cons_append, List.nodup_cons]
    rw [List.nodup_cons] at hx
    refine ⟨?_, ih hx.2 (fun hm => ha (List.mem_cons_of_mem _ hm))⟩
    intro hmem
    rcases List.mem_append.mp hmem with hm | hm
    · exact hx.1 hm
    · rw [List.mem_singleton] at hm
      subst hm
      exact ha (List.mem_cons_self _ _)

/-- Replacing the entry the correlation-id scan found by one with the same id
leaves the list of ids unchanged. -/
theorem map_id_set_of_findKobaRun (msgs : List Message) (rid : String) (i : Nat)
    (m u : Message) (hfind : findKobaRun msgs rid = some (i, m)) (hid : u.id = m.id) :
    (msgs.set i u).map Message.id = msgs.map Message.id := by
  induction msgs generalizing i with
  | nil => simp [findKobaRun] at hfind
  | cons x rest ih =>
    unfold findKobaRun at hfind
    by_cases hx : matchesRun rid x
    · rw [if_pos hx] at hfind
      simp only [Option.some.injEq, Prod.mk.injEq] at hfind
      obtain ⟨hi, hm⟩ := hfind
      subst hm
      rw [← hi]
      simp [List.set, hid]
    · rw [if_neg hx] at hfind
      rw [Option.map_eq_some'] at hfind
      obtain ⟨⟨j, mm⟩, hp, hpe⟩ := hfind
      simp only [Prod.mk.injEq] at hpe
      obtain ⟨hj, hmm⟩ := hpe
      subst hj
      subst hmm
      simp [List.set, ih j hp]

/-- The message family `mkMsg` is injective (ids have distinct lengths). -/
theorem mkMsg_injective : Function.Injective mkMsg := by
  intro a b hab
  have hid : (mkMsg a).id = (mkMsg b).id := by rw [hab]
  have hdata : List.replicate a 'a' = List.replicate b 'a' :=
    congrArg String.data hid
  simpa using congrArg List.length hdata

/-- C1 counterexample: an HTTP outbound send made while the link is not ready
broadcasts only the message frame — no error or status event of any kind is
broadcast to subscribers (the failure lives solely in the HTTP response),
contrary to the claim that a distinct error/status event is also broadcast on
every outbound send. -/
theorem C1_http_no_error_broadcast_cex :
    (send_chat_message_http ⟨[], none⟩ "hi" "me_1" "t1" false
        "Not connected to Gateway").broadcasts =
      [.message ⟨"me_1", "hi", "me", "t1", none, none, none⟩] ∧
    ((send_chat_message_http ⟨[], none⟩ "hi" "me_1" "t1" false
        "Not connected to Gateway").broadcasts.all Event.isMessage) = true := by
  exact ⟨by decide, by decide⟩

/-- C1 (amended): for every outbound send with non-empty stripped text while
the gateway link is not ready, the message is appended to the store exactly
once and broadcast to subscribers exactly once, and it is never removed; in
the WebSocket path two typing status events are additionally broadcast and an
error event is sent to the originating client only, while the HTTP path
broadcasts nothing besides the message and reports the failure in its HTTP
response. -/
theorem C1_outbound_send_not_ready (h : ChatHistory) (raw newId ts gwErr : String)
    (hne : pyStrip raw ≠ "") :
    (handle_ws_send h raw newId ts false gwErr).history.messages =
      h.messages ++ [⟨newId, pyStrip raw, "me", ts, none, none, none⟩] ∧
    (handle_ws_send h raw newId ts false gwErr).broadcasts =
      [.message ⟨newId, pyStrip raw, "me", ts, none, none, none⟩,
       .typing true, .typing false] ∧
    (handle_ws_send h raw newId ts false gwErr).toSender = [.error gwErr] ∧
    (send_chat_message_http h raw newId ts false gwErr).history.messages =
      h.messages ++ [⟨newId, pyStrip raw, "me", ts, none, none, none⟩] ∧
    (send_chat_message_http h raw newId ts false gwErr).broadcasts =
      [.message ⟨newId, pyStrip raw, "me", ts, none, none, none⟩] ∧
    (send_chat_message_http h raw newId ts false gwErr).response = .serverError gwErr := by
  refine ⟨?_, ?_, ?_, ?_, ?_, ?_⟩ <;>
    simp [handle_ws_send, send_chat_message_http, hne, appendMessage]

/-- C1 witness at concrete inputs. -/
theorem C1_outbound_send_not_ready_witness :
    pyStrip "hi" ≠ "" ∧
    (handle_ws_send ⟨[], none⟩ "hi" "me_1" "t1" false "err").toSender = [.error "err"] :=
  ⟨by decide, (C1_outbound_send_not_ready ⟨[], none⟩ "hi" "me_1" "t1" "err" (by decide)).2.2.1⟩

/-- C2 counterexample: after a non-terminal delta followed by a terminal delta
for the same correlation id, the single stored message still carries
streaming set to true — the terminal update never flips streaming to false as
the claim states. -/
theorem C2_terminal_keeps_streaming_cex :
    (handle_agent_event (handle_agent_event ⟨[], none⟩ "r1" "part" true "k1" "t1").history
        "r1" "full" false "k2" "t2").history.messages =
      [⟨"k1", "full", "koba", "t1", none, some true, some true⟩] ∧
    (⟨"k1", "full", "koba", "t1", none, some true, some true⟩ : Message).streaming ≠
      some false := by
  exact ⟨by decide, by decide⟩

/-- C2 (amended): a non-terminal delta followed by a terminal delta with the
same correlation id yields exactly one stored message whose text is the
terminal text, with complete set and the correlation id cleared — but with
its streaming flag left at true, not flipped to false. -/
theorem C2_merge_stream_then_terminal (h : ChatHistory)
    (rid t1 t2 id1 ts1 id2 ts2 : String)
    (hfind : findKobaRun h.messages rid = none) (h1 : t1 ≠ "") (h2 : t2 ≠ "") :
    (handle_agent_event (handle_agent_event h rid t1 true id1 ts1).history
        rid t2 false id2 ts2).history.messages =
      h.messages ++ [⟨id1, t2, "koba", ts1, none, some true, some true⟩] :=
  merge_stream_then_terminal h rid t1 t2 id1 ts1 id2 ts2 hfind h1 h2

/-- C2 witness at concrete inputs. -/
theorem C2_merge_stream_then_terminal_witness :
    (findKobaRun ([] : List Message) "r1" = none ∧ ("part" : String) ≠ "" ∧
      ("full" : String) ≠ "") ∧
    (handle_agent_event (handle_agent_event ⟨[], none⟩ "r1" "part" true "k1" "t1").history
        "r1" "full" false "k2" "t2").history.messages =
      [⟨"k1", "full", "koba", "t1", none, some true, some true⟩] :=
  ⟨⟨by decide, by decide, by decide⟩, by
    simpa using C2_merge_stream_then_terminal ⟨[], none⟩ "r1" "part" "full" "k1" "t1" "k2" "t2"
      (by decide) (by decide) (by decide)⟩

/-- C3 counterexample: appending a message whose id already exists in the
store is not a no-op returning the existing record — the store ends with two
entries carrying the same id. -/
theorem C3_append_duplicate_id_cex :
    (appendMessage (appendMessage ⟨[], none⟩ ⟨"me_1", "hi", "me", "t", none, none, none⟩)
        ⟨"me_1", "hi", "me", "t", none, none, none⟩).messages =
      [⟨"me_1", "hi", "me", "t", none, none, none⟩,
       ⟨"me_1", "hi", "me", "t", none, none, none⟩] ∧
    (appendMessage (appendMessage ⟨[], none⟩ ⟨"me_1", "hi", "me", "t", none, none, none⟩)
        ⟨"me_1", "hi", "me", "t", none, none, none⟩).messages.length ≠ 1 := by
  exact ⟨by decide, by decide⟩

/-- C3 (amended): append always inserts at the end — a repeated id produces a
duplicate entry rather than an idempotent no-op — and for any sequence of
appends the read-back returns the messages in call order. -/
theorem C3_append_call_order (ms : List Message) (h : ChatHistory) :
    (ms.foldl appendMessage h).messages = h.messages ++ ms :=
  appendMessage_foldl ms h

/-- C4 counterexample: appending 501 pairwise-distinct messages to an empty
store leaves 501 entries, not 500 — no capacity bound is enforced and the
oldest entry is still present. -/
theorem C4_no_capacity_bound_cex :
    ((List.range (500 + 1)).map mkMsg).Nodup ∧
    ((((List.range (500 + 1)).map mkMsg).foldl appendMessage
        ⟨[], none⟩).messages.length = 500 + 1) ∧
    ((500 + 1 : Nat) ≠ 500) ∧
    ((((List.range (500 + 1)).map mkMsg).foldl appendMessage ⟨[], none⟩).messages.head? =
      some (mkMsg 0)) := by
  refine ⟨(List.nodup_range _).map mkMsg_injective, ?_, by decide, ?_⟩
  · rw [appendMessage_foldl]
    simp
  · rw [appendMessage_foldl]
    rw [List.range_succ_eq_map]
    rfl

/-- C4 (amended): the store enforces no capacity bound — appending any number
of messages retains them all and the oldest entry is never evicted. -/
theorem C4_append_no_eviction (m : Message) (ms : List Message) :
    ((m :: ms).foldl appendMessage ⟨[], none⟩).messages.length = ms.length + 1 ∧
    ((m :: ms).foldl appendMessage ⟨[], none⟩).messages.head? = some m := by
  constructor
  · rw [appendMessage_foldl]
    simp
  · rw [appendMessage_foldl]
    simp

/-- C5 counterexample: with the link disconnected and no exception raised, two
successive loop iterations both attempt a connection and both sleep 30 units,
with the stored delay reset to 1 at each attempt — the gaps between reconnect
attempts are 30, 30, not an exponential 1, 2. -/
theorem C5_fixed_reconnect_interval_cex :
    gateway_loop_iter ⟨false, 1⟩ = ⟨⟨false, 1⟩, 30, true⟩ ∧
    gateway_loop_iter (gateway_loop_iter ⟨false, 1⟩).state = ⟨⟨false, 1⟩, 30, true⟩ ∧
    (30 : Nat) ≠ 1 ∧ (30 : Nat) ≠ 2 := by
  exact ⟨by decide, by decide, by decide, by decide⟩

/-- C5 (amended): while disconnected, each exception-free loop iteration
attempts a connection, resets the delay to 1 and sleeps a fixed 30 units; the
exponential backoff — sleep the current delay, then double it capped at 60 —
governs only iterations whose body raises an exception, and the delay is
reset on attempting a connection, not upon reaching the ready state. -/
theorem C5_reconnect_loop_behavior (s : GatewayLoopState)
    (hs : s.gateway_connected = false) :
    gateway_loop_iter s = ⟨⟨false, 1⟩, 30, true⟩ ∧
    gateway_loop_iter_exception s =
      (⟨s.gateway_connected, min (s.reconnect_delay * 2) 60⟩, s.reconnect_delay) ∧
    (gateway_loop_iter_exception s).1.reconnect_delay ≤ 60 := by
  refine ⟨?_, rfl, ?_⟩
  · simp [gateway_loop_iter, hs]
  · exact Nat.min_le_right _ _

/-- C5 witness at a concrete state. -/
theorem C5_reconnect_loop_behavior_witness :
    (GatewayLoopState.mk false 5).gateway_connected = false ∧
    gateway_loop_iter ⟨false, 5⟩ = ⟨⟨false, 1⟩, 30, true⟩ :=
  ⟨by decide, (C5_reconnect_loop_behavior ⟨false, 5⟩ (by decide)).1⟩

/-- C6: broadcasting over a registry in which exactly one subscriber fails
removes that subscriber and only that subscriber from the registry, and every
other subscriber still receives the event. -/
theorem C6_broadcast_one_failure {α : Type} [DecidableEq α]
    (fails : α → Bool) (clients : List α) (c : α)
    (hnd : clients.Nodup) (hone : clients.filter fails = [c]) :
    (broadcast_to_clients fails clients).1 = clients.erase c ∧
    c ∉ (broadcast_to_clients fails clients).1 ∧
    (∀ x ∈ clients, x ≠ c → x ∈ (broadcast_to_clients fails clients).1) ∧
    (broadcast_to_clients fails clients).2 = clients.filter (fun x => !fails x) ∧
    (∀ x ∈ clients, x ≠ c → x ∈ (broadcast_to_clients fails clients).2) := by
  have hc : c ∈ clients := by
    have hmem : c ∈ clients.filter fails := by
      rw [hone]
      exact List.mem_cons_self _ _
    exact List.mem_of_mem_filter hmem
  have hreg : (broadcast_to_clients fails clients).1 = clients.erase c := by
    simp [broadcast_to_clients, broadcast_pass_eq, hone, remove_disconnected, hc]
  have hdel : (broadcast_to_clients fails clients).2 =
      clients.filter (fun x => !fails x) := by
    simp [broadcast_to_clients, broadcast_pass_eq]
  have hnotfail : ∀ x ∈ clients, x ≠ c → fails x = false := by
    intro x hx hxc
    cases hfails : fails x
    · rfl
    · exfalso
      have hmem : x ∈ clients.filter fails := List.mem_filter.mpr ⟨hx, hfails⟩
      rw [hone] at hmem
      exact hxc (List.mem_singleton.mp hmem)
  refine ⟨hreg, ?_, ?_, hdel, ?_⟩
  · rw [hreg]
    intro hmem
    exact ((List.Nodup.mem_erase_iff hnd).mp hmem).1 rfl
  · intro x hx hxc
    rw [hreg]
    exact (List.mem_erase_of_ne hxc).mpr hx
  · intro x hx hxc
    rw [hdel]
    exact List.mem_filter.mpr ⟨hx, by simp [hnotfail x hx hxc]⟩

/-- C6 witness: three subscribers, the middle one failing. -/
theorem C6_broadcast_one_failure_witness :
    (([1, 2, 3] : List Nat).Nodup ∧
      ([1, 2, 3] : List Nat).filter (fun c => c == 2) = [2]) ∧
    (broadcast_to_clients (fun c => c == 2) ([1, 2, 3] : List Nat)).1 = [1, 3] := by
  refine ⟨⟨by decide, by decide⟩, ?_⟩
  rw [(C6_broadcast_one_failure (fun c => c == 2) ([1, 2, 3] : List Nat) 2
    (by decide) (by decide)).1]
  decide

/-- C7 counterexample: a message created directly by a terminal delta retains
its run id, so a second terminal delta with the same correlation id mutates
that already-terminal message in place instead of creating a new message —
the store still holds exactly one message, under the old id, with its text
overwritten. -/
theorem C7_second_terminal_mutates_cex :
    (handle_agent_event (handle_agent_event ⟨[], none⟩ "r1" "fullA" false "k1" "t1").history
        "r1" "fullB" false "k2" "t2").history.messages =
      [⟨"k1", "fullB", "koba", "t1", none, some true, none⟩] ∧
    (handle_agent_event (handle_agent_event ⟨[], none⟩ "r1" "fullA" false "k1" "t1").history
        "r1" "fullB" false "k2" "t2").history.messages.length = 1 := by
  exact ⟨by decide, by decide⟩

/-- C7 (amended): a second terminal delta creates a new message only when the
already-terminal message reached terminal state as the in-place update of a
streaming message, which clears its run id: after a streaming delta and a
terminal delta, a further terminal delta with the same correlation id leaves
the terminal message untouched and appends a fresh message under the freshly
generated id (that new message itself keeping the run id and complete flag).
A message created directly by a terminal delta instead keeps its run id and
is mutated in place by a second terminal delta. -/
theorem C7_second_terminal_after_stream (h : ChatHistory)
    (rid t1 t2 t3 id1 ts1 id2 ts2 id3 ts3 : String)
    (hfind : findKobaRun h.messages rid = none)
    (h1 : t1 ≠ "") (h2 : t2 ≠ "") (h3 : t3 ≠ "") :
    (handle_agent_event
        (handle_agent_event (handle_agent_event h rid t1 true id1 ts1).history
          rid t2 false id2 ts2).history
        rid t3 false id3 ts3).history.messages =
      h.messages ++ [⟨id1, t2, "koba", ts1, none, some true, some true⟩,
                     ⟨id3, t3, "koba", ts3, some rid, some true, none⟩] := by
  have hmid := merge_stream_then_terminal h rid t1 t2 id1 ts1 id2 ts2 hfind h1 h2
  have hterm : matchesRun rid
      (⟨id1, t2, "koba", ts1, none, some true, some true⟩ : Message) = false := by
    simp [matchesRun]
  have hfind3 : findKobaRun
      (handle_agent_event (handle_agent_event h rid t1 true id1 ts1).history
        rid t2 false id2 ts2).history.messages rid = none := by
    rw [hmid]
    exact findKobaRun_append_nomatch _ _ _ hfind hterm
  rw [handle_agent_event_creates _ rid t3 false id3 ts3 h3 hfind3, hmid]
  simp

/-- C7 witness at concrete inputs. -/
theorem C7_second_terminal_after_stream_witness :
    (findKobaRun ([] : List Message) "r1" = none ∧ ("a" : String) ≠ "" ∧
      ("b" : String) ≠ "" ∧ ("c" : String) ≠ "") ∧
    (handle_agent_event
        (handle_agent_event (handle_agent_event ⟨[], none⟩ "r1" "a" true "k1" "t1").history
          "r1" "b" false "k2" "t2").history
        "r1" "c" false "k3" "t3").history.messages =
      [⟨"k1", "b", "koba", "t1", none, some true, some true⟩,
       ⟨"k3", "c", "koba", "t3", some "r1", some true, none⟩] :=
  ⟨⟨by decide, by decide, by decide, by decide⟩, by
    simpa using C7_second_terminal_after_stream ⟨[], none⟩ "r1" "a" "b" "c" "k1" "t1" "k2"
      "t2" "k3" "t3" (by decide) (by decide) (by decide) (by decide)⟩

/-- C8 counterexample: a whitespace-only WebSocket send is dropped silently —
no store mutation, no persistence, no broadcast, but also no error of any
kind is produced, so the operation is not rejected with an invalid-input
error as the claim states. -/
theorem C8_ws_empty_send_silent_cex :
    handle_ws_send ⟨[], none⟩ "   " "me_1" "t" false "err" = ⟨⟨[], none⟩, [], [], []⟩ ∧
    (handle_ws_send ⟨[], none⟩ "   " "me_1" "t" false "err").toSender = [] := by
  exact ⟨by decide, by decide⟩

/-- C8 (amended): empty or whitespace-only outbound sends cause no store
mutation, no persistence and no broadcast; the HTTP route rejects them with
an error response, while the WebSocket handler ignores them silently without
emitting any error. -/
theorem C8_empty_send_no_mutation (h : ChatHistory) (raw newId ts gwErr : String)
    (gw : Bool) (he : pyStrip raw = "") :
    handle_ws_send h raw newId ts gw gwErr = ⟨h, [], [], []⟩ ∧
    send_chat_message_http h raw newId ts gw gwErr =
      ⟨h, [], [], .badRequest "Empty message"⟩ := by
  constructor
  · simp [handle_ws_send, he]
  · simp [send_chat_message_http, he]

/-- C8 witness at concrete inputs. -/
theorem C8_empty_send_no_mutation_witness :
    pyStrip "  " = "" ∧
    handle_ws_send ⟨[], none⟩ "  " "i" "t" false "e" = ⟨⟨[], none⟩, [], [], []⟩ :=
  ⟨by decide, (C8_empty_send_no_mutation ⟨[], none⟩ "  " "i" "t" "e" false (by decide)).1⟩

/-- C9 counterexample: the store never deduplicates ids — a send whose
generated id collides with a stored id (two sends within the same
millisecond) leaves two messages with the same id, violating the uniqueness
invariant. -/
theorem C9_duplicate_id_cex :
    ((handle_ws_send ⟨[⟨"me_1", "hi", "me", "t1", none, none, none⟩], none⟩
        "again" "me_1" "t2" true "").history.messages.map Message.id) =
      ["me_1", "me_1"] ∧
    ¬ (["me_1", "me_1"] : List String).Nodup := by
  exact ⟨by decide, by decide⟩

/-- C9 (amended): store operations preserve id uniqueness only under the
assumption that the freshly generated id differs from every stored id; under
that assumption the WebSocket send, the HTTP send and the delta-merge handler
all keep the stored ids duplicate-free (the in-place merge update reuses the
existing id). -/
theorem C9_ids_unique_of_fresh (h : ChatHistory)
    (raw newId ts gwErr rid t : String) (gw dT : Bool)
    (hnd : (h.messages.map Message.id).Nodup)
    (hfresh : newId ∉ h.messages.map Message.id) :
    ((handle_ws_send h raw newId ts gw gwErr).history.messages.map Message.id).Nodup ∧
    ((send_chat_message_http h raw newId ts gw gwErr).history.messages.map
      Message.id).Nodup ∧
    ((handle_agent_event h rid t dT newId ts).history.messages.map Message.id).Nodup := by
  refine ⟨?_, ?_, ?_⟩
  · by_cases hraw : pyStrip raw = ""
    · simp [handle_ws_send, hraw, hnd]
    · cases gw <;> simp [handle_ws_send, hraw, appendMessage] <;>
        exact nodup_append_singleton _ _ hnd hfresh
  · by_cases hraw : pyStrip raw = ""
    · simp [send_chat_message_http, hraw, hnd]
    · simp [send_chat_message_http, hraw, appendMessage]
      exact nodup_append_singleton _ _ hnd hfresh
  · by_cases ht : t = ""
    · simp [handle_agent_event, ht, hnd]
    · cases hf : findKobaRun h.messages rid with
      | none =>
        simp [handle_agent_event, ht, hf, appendMessage]
        exact nodup_append_singleton _ _ hnd hfresh
      | some p =>
        obtain ⟨i, old⟩ := p
        have hupd : ∀ u : Message, u.id = old.id →
            ((h.messages.set i u).map Message.id).Nodup := by
          intro u hu
          rw [map_id_set_of_findKobaRun h.messages rid i old u hf hu]
          exact hnd
        simp only [handle_agent_event, if_neg ht, hf]
        cases dT
        · exact hupd _ rfl
        · exact hupd _ rfl

/-- C9 witness at concrete inputs. -/
theorem C9_ids_unique_of_fresh_witness :
    (((⟨[⟨"a", "x", "me", "t", none, none, none⟩], none⟩ : ChatHistory).messages.map
        Message.id).Nodup ∧
      "b" ∉ (⟨[⟨"a", "x", "me", "t", none, none, none⟩], none⟩ : ChatHistory).messages.map
        Message.id) ∧
    ((handle_ws_send ⟨[⟨"a", "x", "me", "t", none, none, none⟩], none⟩ "hi" "b" "t2" true
        "").history.messages.map Message.id).Nodup :=
  ⟨⟨by decide, by decide⟩,
    (C9_ids_unique_of_fresh ⟨[⟨"a", "x", "me", "t", none, none, none⟩], none⟩ "hi" "b" "t2"
      "" "r" "y" true true (by decide) (by decide)).1⟩

/-- C10 counterexample: persistence is a truncate-then-write of the history
file itself; a crash between the truncation and the write leaves an empty
file — a state that is neither the old nor the new contents — visible to
readers, and no temp-file rename is involved. -/
theorem C10_truncate_gap_cex :
    (crashStates ⟨"old", none⟩ (save_chat_history_ops "new")).map FsState.target =
      ["old", "", "new"] ∧
    ("" : String) ≠ "old" ∧ ("" : String) ≠ "new" ∧
    FsOp.renameTempToTarget ∉ save_chat_history_ops "new" := by
  exact ⟨by decide, by decide, by decide, by decide⟩

/-- C10 (amended): every save rewrites the history file in place — the crash
states of a save over old contents are exactly the old contents, an empty
file, and the new contents, and the operation sequence contains no rename of
a temporary file. -/
theorem C10_save_in_place (old s : String) :
    (crashStates ⟨old, none⟩ (save_chat_history_ops s)).map FsState.target =
      [old, "", s] ∧
    FsOp.renameTempToTarget ∉ save_chat_history_ops s := by
  constructor
  · rfl
  · simp [save_chat_history_ops]
